import Mathlib

/-!
# gui/dump-all-dialogs.cpp

A shallow embedding of the dialog dumper of ScummVM (`src/gui/dump-all-dialogs.cpp`):
`saveGUISnapshot`, `handleSimpleDialog`, `loopThroughTabs`, `dumpDialogs` and
`dumpAllDialogs`.

The functions are `void` procedures that act on the GUI, the translation
manager, the file system and the backend.  Each one is embedded as a function
`World → World`, where a `World` holds the trace of the effects performed so
far, in program order.  Everything the procedures read from their collaborators
(whose sources are other files) is a field of `Env`.

`Common::String` values are Lean strings (the callers pass C strings, without an
embedded NUL, so `%s` of `c_str()` prints the whole string); `int` values are
`Int` (the only arithmetic is `tabNo + 1` with `tabNo < getTabCount()`, which
cannot overflow).
-/

namespace GUI

/-! ## Data model -/

/-- The preprocessor symbols tested by `dumpDialogs`. -/
structure Build where
  useTranslation : Bool
  useCloud : Bool
  useHttp : Bool
  useFluidsynth : Bool
  deriving DecidableEq, Repr

/-- A `Graphics::PixelFormat` value (declared in another file): identified by a code. -/
structure PixelFormat where
  code : Nat
  deriving DecidableEq, Repr

/-- A `Graphics::ManagedSurface` (declared in another file): identified by a handle. -/
structure ManagedSurface where
  handle : Nat
  deriving DecidableEq, Repr

/-- The dialog objects constructed by `dumpDialogs`, with their constructor
arguments.  An argument written `_("...")` in the source is recorded by its
message id. -/
inductive Dialog where
  | messageDialog (message : String)
  | aboutDialog
  | cloudConnectionWizard
  | remoteBrowserDialog (title : String)
  | downloadPacksDialog (packname packListUrl packsGlob : String)
  | fluidSynthSettingsDialog
  | themeBrowser
  | browserDialog (title : String) (dirBrowser : Bool)
  | chooserDialog (title : String)
  | massAddDialog (startDir : String)
  | globalOptionsDialog (launcher : String)
  deriving DecidableEq, Repr

/-- One effect on a collaborator. -/
inductive Event where
  /-- Call of `TransMan.setLanguage(lang)` -/
  | setLanguage (lang : String)
  /-- Call of `dialog.open()` -/
  | dialogOpen (d : Dialog)
  /-- Call of `dialog.reflowLayout()` -/
  | reflowLayout (d : Dialog)
  /-- Call of `g_gui.redrawFull()` -/
  | redrawFull
  /-- Call of `dialog.close()` -/
  | dialogClose (d : Dialog)
  /-- Call of `tabWidget->setActiveTab(tabNo)` on the tab widget of `d` -/
  | setActiveTab (d : Dialog) (tabNo : Int)
  /-- Call of `outFile.open(Common::Path(outName, '/'))`: one attempt to open `path` -/
  | dumpFileOpen (path : String)
  /-- Call of `Image::writePNG(outFile, surf)` on the file opened at `path` -/
  | writePNG (path : String) (surf : ManagedSurface)
  /-- Call of `outFile.finalize()` -/
  | finalize (path : String)
  /-- Call of `outFile.close()` -/
  | dumpFileClose (path : String)
  /-- Call of `warning(...)`, with the formatted text -/
  | warning (text : String)
  /-- Call of `dumpDir.createDirectory()` -/
  | createDirectory (path : String)
  /-- Call of `g_gui.theme()->updateSurfaceDimensions(w, h, format)` -/
  | updateSurfaceDimensions (width height : Int) (format : PixelFormat)
  /-- Call of `g_system->quit()` -/
  | quit
  deriving DecidableEq, Repr

/-- What the procedures read from the rest of the program. -/
structure Env where
  /-- the build configuration -/
  build : Build
  /-- the result of the `k`-th call of `DumpFile::open` of the run, made on `path` -/
  openOk : Nat → String → Bool
  /-- value of `g_system->getOverlayWidth()`, a property of the backend that no
  call made in this file is known to change -/
  overlayWidth : Int
  /-- value of `g_system->getOverlayHeight()`, as for the width -/
  overlayHeight : Int
  /-- value of `g_system->getOverlayFormat()` -/
  overlayFormat : PixelFormat
  /-- value of `g_gui.theme()->getScreenSurface()` -/
  screenSurface : ManagedSurface
  /-- result of `dialog.findWidget(kTabWidget)`: `none` for a null pointer, otherwise the
  `getTabCount()` of the widget found -/
  findTabWidget : Dialog → Option Int
  /-- value of `Common::getLanguageList()` -/
  languageList : List String
  /-- value of `dumpDir.isDirectory()` for `snapshots` -/
  snapshotsIsDirectory : Bool

/-- The effects performed so far, and the number of `DumpFile::open` calls made. -/
structure World where
  log : List Event
  opens : Nat
  deriving DecidableEq, Repr

/-- The state at program start. -/
def World.init : World := ⟨[], 0⟩

/-- Performs one effect. -/
def World.emit (w : World) (e : Event) : World :=
  { w with log := w.log ++ [e] }

/-- Rendering of an `int` by `%d` of `Common::String::format`. -/
def fmtInt (i : Int) : String := toString i

/-- Source: `Common::String::format("-%dx%d-%s.png", width, height, lang.c_str())`. -/
def formatSuffix (width height : Int) (lang : String) : String :=
  "-" ++ fmtInt width ++ "x" ++ fmtInt height ++ "-" ++ lang ++ ".png"

/-- Source: `Common::String::format("-%d-%dx%d-%s.png", n, width, height, lang.c_str())`. -/
def formatTabSuffix (n width height : Int) (lang : String) : String :=
  "-" ++ fmtInt n ++ "-" ++ fmtInt width ++ "x" ++ fmtInt height ++ "-" ++ lang ++ ".png"

/-! ## The procedures -/

/-- Source: `void saveGUISnapshot(const Graphics::ManagedSurface &surf, const Common::String &filename)` -/
def saveGUISnapshot (env : Env) (surf : ManagedSurface) (filename : String) (w : World) : World :=
  let outName := "snapshots/" ++ filename
  let ok := env.openOk w.opens outName
  let w := { w.emit (.dumpFileOpen outName) with opens := w.opens + 1 }
  if ok then
    let w := w.emit (.writePNG outName surf)
    let w := w.emit (.finalize outName)
    let w := w.emit (.dumpFileClose outName)
    w.emit (.warning ("Dumped " ++ filename))
  else
    w

/-- Source: `void handleSimpleDialog(GUI::Dialog &dialog, const Common::String &filename,
const Graphics::ManagedSurface &surf)` -/
def handleSimpleDialog (env : Env) (dialog : Dialog) (filename : String) (surf : ManagedSurface)
    (w : World) : World :=
  let w := w.emit (.dialogOpen dialog)
  let w := w.emit (.reflowLayout dialog)
  let w := w.emit .redrawFull
  let w := saveGUISnapshot env surf filename w
  w.emit (.dialogClose dialog)

/-- The `for (int tabNo = 0; tabNo < tabWidget->getTabCount(); tabNo++)` loop of
`loopThroughTabs`, from the value `tabNo` of the counter on. -/
def tabLoop (env : Env) (dialog : Dialog) (lang : String) (surf : ManagedSurface) (name : String)
    (tabCount : Int) (tabNo : Int) (w : World) : World :=
  if h : tabNo < tabCount then
    let suffix := formatTabSuffix (tabNo + 1) env.overlayWidth env.overlayHeight lang
    let w := w.emit (.setActiveTab dialog tabNo)
    let w := handleSimpleDialog env dialog (name ++ suffix) surf w
    tabLoop env dialog lang surf name tabCount (tabNo + 1) w
  else
    w
termination_by (tabCount - tabNo).toNat
decreasing_by omega

/-- Source: `void loopThroughTabs(GUI::Dialog &dialog, const Common::String &lang,
const Graphics::ManagedSurface &surf, const Common::String &name)` -/
def loopThroughTabs (env : Env) (dialog : Dialog) (lang : String) (surf : ManagedSurface)
    (name : String) (w : World) : World :=
  let w := w.emit (.dialogOpen dialog)
  let w :=
    match env.findTabWidget dialog with
    | some tabCount => tabLoop env dialog lang surf name tabCount 0 w
    | none => w
  w.emit (.dialogClose dialog)

/-- Source: `void dumpDialogs(const Common::String &lang, const Common::String &message,
int width, int height)` -/
def dumpDialogs (env : Env) (lang : String) (message : String) (width height : Int)
    (w : World) : World :=
  let w := if env.build.useTranslation then w.emit (.setLanguage lang) else w
  let surf := env.screenSurface
  let suffix := formatSuffix width height lang
  let w := handleSimpleDialog env (.messageDialog message) ("messageDialog" ++ suffix) surf w
  let w := handleSimpleDialog env .aboutDialog ("aboutDialog" ++ suffix) surf w
  let w :=
    if env.build.useCloud then
      let w := handleSimpleDialog env .cloudConnectionWizard
        ("cloudConnectingWizard" ++ suffix) surf w
      handleSimpleDialog env (.remoteBrowserDialog "Select directory with game data")
        ("remoteBrowserDialog" ++ suffix) surf w
    else w
  let w :=
    if env.build.useHttp then
      let w := handleSimpleDialog env (.downloadPacksDialog "icon packs" "LIST" "gui-icons*.dat")
        ("downloadIconPacksDialog" ++ suffix) surf w
      handleSimpleDialog env (.downloadPacksDialog "shader packs" "LIST-SHADERS" "shaders*.dat")
        ("downloadShaderPacksDialog" ++ suffix) surf w
    else w
  let w :=
    if env.build.useFluidsynth then
      handleSimpleDialog env .fluidSynthSettingsDialog ("fluidSynthSettings-" ++ suffix) surf w
    else w
  let w := handleSimpleDialog env .themeBrowser ("themeBrowser-" ++ suffix) surf w
  let w := handleSimpleDialog env (.browserDialog "Select directory with game data" true)
    ("browserDialog-" ++ suffix) surf w
  let w := handleSimpleDialog env (.chooserDialog "Pick the game:") ("chooserDialog-" ++ suffix)
    surf w
  let w := handleSimpleDialog env (.massAddDialog ".") ("massAddDialog-" ++ suffix) surf w
  loopThroughTabs env (.globalOptionsDialog "Launcher") lang surf "GlobalOptionDialog" w

/-- The array `resolutions` of `dumpAllDialogs`. -/
def resolutions : List (Int × Int) :=
  [(320, 200), (320, 240), (640, 400), (640, 480), (800, 600)]

/-- Source: `void dumpAllDialogs(const Common::String &message)` -/
def dumpAllDialogs (env : Env) (message : String) (w : World) : World :=
  let list := env.languageList
  let w := if !env.snapshotsIsDirectory then w.emit (.createDirectory "snapshots") else w
  let pixelFormat := env.overlayFormat
  let w := resolutions.foldl (fun w res =>
    let width := res.1
    let height := res.2
    let w := w.emit (.updateSurfaceDimensions width height pixelFormat)
    list.foldl (fun w lang => dumpDialogs env message lang width height w) w) w
  w.emit .quit

/-! ## Observations on traces -/

/-- The events performed by the procedure `f` when it is started in `w`: what it
adds to the trace. -/
def performed (f : World → World) (w : World) : List Event :=
  (f w).log.drop w.log.length

/-- An event that does not depend on the outcome of a file open: every event but
the four that `saveGUISnapshot` performs on an opened file. -/
def Event.outcomeFree : Event → Bool
  | .writePNG _ _ => false
  | .finalize _ => false
  | .dumpFileClose _ => false
  | .warning _ => false
  | _ => true

/-- The dialog lifecycle events and the file open attempts of a trace, in order. -/
def observe (tr : List Event) : List Event :=
  tr.filter Event.outcomeFree

/-- The paths of the snapshot attempts of a trace, in order. -/
def attempts (tr : List Event) : List String :=
  tr.filterMap fun e =>
    match e with
    | .dumpFileOpen path => some path
    | _ => none

/-- The texts logged by `warning` in a trace, in order. -/
def warnings (tr : List Event) : List String :=
  tr.filterMap fun e =>
    match e with
    | .warning text => some text
    | _ => none

/-- The number of times `d` is open after the trace `tr`, when it was open `n`
times before: `open` adds one, `close` removes one. -/
def openDepth (d : Dialog) (tr : List Event) (n : Nat) : Nat :=
  tr.foldl (fun k e =>
    if e = .dialogOpen d then k + 1 else if e = .dialogClose d then k - 1 else k) n

/-- The observable steps of one `handleSimpleDialog` call: open, layout, redraw,
one snapshot attempt on `snapshots/filename`, close. -/
def capture (d : Dialog) (filename : String) : List Event :=
  [.dialogOpen d, .reflowLayout d, .redrawFull, .dumpFileOpen ("snapshots/" ++ filename),
    .dialogClose d]

/-- The number of iterations of `for (tabNo = 0; tabNo < getTabCount(); tabNo++)`
for a result of `findWidget`: none for a null pointer. -/
def tabTrips : Option Int → Nat
  | none => 0
  | some tabCount => tabCount.toNat

/-- The events a sweep performs itself, outside the catalog passes. -/
def Event.sweepLevel : Event → Bool
  | .createDirectory _ => true
  | .updateSurfaceDimensions _ _ _ => true
  | .quit => true
  | _ => false

/-- The message texts of the message dialogs opened in a trace, in order: one
per `dumpDialogs` pass. -/
def passes (tr : List Event) : List String :=
  tr.filterMap fun e =>
    match e with
    | .dialogOpen (.messageDialog message) => some message
    | _ => none

/-- The trace of `w2` continues the trace of `w`. -/
def Extends (w w2 : World) : Prop :=
  ∃ tr, w2.log = w.log ++ tr

/-! ## Closed forms of the observable traces

Lists used in the proofs: each is shown below to be the observable part of what
the procedure performs (`observe_performed_loopThroughTabs`,
`observe_performed_dumpDialogs`, `observe_performed_dumpAllDialogs`). -/

/-- The observable steps of `n` consecutive iterations of the tab loop, the first
one for the tab index `tabNo`. -/
def tabSteps (env : Env) (d : Dialog) (lang name : String) (tabNo : Int) (n : Nat) : List Event :=
  (List.range n).flatMap fun i =>
    .setActiveTab d (tabNo + i) ::
      capture d (name ++ formatTabSuffix (tabNo + i + 1) env.overlayWidth env.overlayHeight lang)

/-- The observable steps of one `dumpDialogs` call. -/
def catalogSteps (env : Env) (lang message : String) (width height : Int) : List Event :=
  (if env.build.useTranslation then [.setLanguage lang] else [])
  ++ capture (.messageDialog message) ("messageDialog" ++ formatSuffix width height lang)
  ++ capture .aboutDialog ("aboutDialog" ++ formatSuffix width height lang)
  ++ (if env.build.useCloud then
        capture .cloudConnectionWizard ("cloudConnectingWizard" ++ formatSuffix width height lang)
        ++ capture (.remoteBrowserDialog "Select directory with game data")
            ("remoteBrowserDialog" ++ formatSuffix width height lang)
      else [])
  ++ (if env.build.useHttp then
        capture (.downloadPacksDialog "icon packs" "LIST" "gui-icons*.dat")
          ("downloadIconPacksDialog" ++ formatSuffix width height lang)
        ++ capture (.downloadPacksDialog "shader packs" "LIST-SHADERS" "shaders*.dat")
            ("downloadShaderPacksDialog" ++ formatSuffix width height lang)
      else [])
  ++ (if env.build.useFluidsynth then
        capture .fluidSynthSettingsDialog ("fluidSynthSettings-" ++ formatSuffix width height lang)
      else [])
  ++ capture .themeBrowser ("themeBrowser-" ++ formatSuffix width height lang)
  ++ capture (.browserDialog "Select directory with game data" true)
      ("browserDialog-" ++ formatSuffix width height lang)
  ++ capture (.chooserDialog "Pick the game:") ("chooserDialog-" ++ formatSuffix width height lang)
  ++ capture (.massAddDialog ".") ("massAddDialog-" ++ formatSuffix width height lang)
  ++ ([.dialogOpen (.globalOptionsDialog "Launcher")]
      ++ tabSteps env (.globalOptionsDialog "Launcher") lang "GlobalOptionDialog" 0
          (tabTrips (env.findTabWidget (.globalOptionsDialog "Launcher")))
      ++ [.dialogClose (.globalOptionsDialog "Launcher")])

/-- The observable steps of one `dumpAllDialogs` call. -/
def sweepSteps (env : Env) (message : String) : List Event :=
  (if env.snapshotsIsDirectory then [] else [.createDirectory "snapshots"])
  ++ resolutions.flatMap (fun res =>
      .updateSurfaceDimensions res.1 res.2 env.overlayFormat ::
        env.languageList.flatMap fun lang => catalogSteps env message lang res.1 res.2)
  ++ [.quit]

/-! ## Sample inputs -/

/-- An environment with the language list `langs`, where `findWidget` gives
`tabs` for the global options dialog and every file open has the outcome `ok`;
all optional features are compiled in, the overlay is 640x480 and the
`snapshots` directory does not exist yet. -/
def sampleEnv (langs : List String) (tabs : Option Int) (ok : Bool) : Env :=
  ⟨⟨true, true, true, true⟩, fun _ _ => ok, 640, 480, ⟨0⟩, ⟨0⟩,
    fun d =>
      match d with
      | .globalOptionsDialog _ => tabs
      | _ => none,
    langs, false⟩

/-! ## Traces grow -/

theorem Extends.refl (w : World) : Extends w w := ⟨[], by simp⟩

theorem Extends.trans {a b c : World} (h1 : Extends a b) (h2 : Extends b c) : Extends a c := by
  obtain ⟨x, hx⟩ := h1
  obtain ⟨y, hy⟩ := h2
  exact ⟨x ++ y, by rw [hy, hx, List.append_assoc]⟩

@[simp] theorem emit_log (w : World) (e : Event) : (w.emit e).log = w.log ++ [e] := rfl

@[simp] theorem emit_opens (w : World) (e : Event) : (w.emit e).opens = w.opens := rfl

theorem emit_extends (w : World) (e : Event) : Extends w (w.emit e) := ⟨[e], rfl⟩

theorem log_eq_of_extends {f : World → World} {w : World} (h : Extends w (f w)) :
    (f w).log = w.log ++ performed f w := by
  obtain ⟨tr, htr⟩ := h
  simp [performed, htr]

theorem performed_eq {f : World → World} {w : World} {tr : List Event}
    (h : (f w).log = w.log ++ tr) : performed f w = tr := by
  simp [performed, h]

@[simp] theorem observe_append (a b : List Event) : observe (a ++ b) = observe a ++ observe b := by
  simp [observe]

@[simp] theorem observe_nil : observe [] = [] := rfl

theorem observe_idem (a : List Event) : observe (observe a) = observe a := by
  simp [observe, List.filter_filter]

theorem observe_capture (d : Dialog) (filename : String) :
    observe (capture d filename) = capture d filename := rfl

/-- The observable part of what `f` performs, from the observable part of its
final trace. -/
theorem observe_performed {f : World → World} {w : World} {tr : List Event}
    (hext : Extends w (f w)) (hobs : observe (f w).log = observe w.log ++ tr) :
    observe (performed f w) = tr := by
  have h := log_eq_of_extends hext
  rw [h, observe_append] at hobs
  exact List.append_cancel_left hobs

theorem filterMap_observe {β : Type} (g : Event → Option β)
    (hg : ∀ e, e.outcomeFree = false → g e = none) (tr : List Event) :
    (observe tr).filterMap g = tr.filterMap g := by
  induction tr with
  | nil => rfl
  | cons e tr ih =>
    unfold observe at ih ⊢
    by_cases he : e.outcomeFree = true
    · simp [List.filter_cons, he, List.filterMap_cons, ih]
    · have he2 : e.outcomeFree = false := by simpa using he
      simp [List.filter_cons, he2, List.filterMap_cons, hg e he2, ih]

theorem attempts_observe (tr : List Event) : attempts (observe tr) = attempts tr :=
  filterMap_observe _ (by intro e he; cases e <;> simp_all [Event.outcomeFree]) tr

theorem passes_observe (tr : List Event) : passes (observe tr) = passes tr :=
  filterMap_observe _ (by intro e he; cases e <;> simp_all [Event.outcomeFree]) tr

theorem count_observe (e : Event) (he : e.outcomeFree = true) (tr : List Event) :
    (observe tr).count e = tr.count e :=
  List.count_filter he

theorem count_open_observe (d : Dialog) (tr : List Event) :
    (observe tr).count (.dialogOpen d) = tr.count (.dialogOpen d) :=
  count_observe (.dialogOpen d) rfl tr

theorem count_close_observe (d : Dialog) (tr : List Event) :
    (observe tr).count (.dialogClose d) = tr.count (.dialogClose d) :=
  count_observe (.dialogClose d) rfl tr

theorem sweepLevel_observe (tr : List Event) :
    (observe tr).filter Event.sweepLevel = tr.filter Event.sweepLevel := by
  induction tr with
  | nil => rfl
  | cons e tr ih =>
    cases e <;> simp_all [observe, List.filter_cons, Event.outcomeFree, Event.sweepLevel]

theorem openDepth_observe (d : Dialog) (tr : List Event) (n : Nat) :
    openDepth d (observe tr) n = openDepth d tr n := by
  induction tr generalizing n with
  | nil => rfl
  | cons e tr ih =>
    cases e <;> simp_all [openDepth, observe, List.filter_cons, Event.outcomeFree]

/-! ## saveGUISnapshot and handleSimpleDialog -/

theorem saveGUISnapshot_log (env : Env) (surf : ManagedSurface) (filename : String) (w : World) :
    (saveGUISnapshot env surf filename w).log =
      w.log ++ (.dumpFileOpen ("snapshots/" ++ filename) ::
        if env.openOk w.opens ("snapshots/" ++ filename) then
          [.writePNG ("snapshots/" ++ filename) surf, .finalize ("snapshots/" ++ filename),
            .dumpFileClose ("snapshots/" ++ filename), .warning ("Dumped " ++ filename)]
        else []) := by
  unfold saveGUISnapshot
  by_cases h : env.openOk w.opens ("snapshots/" ++ filename) = true <;> simp [h]

theorem handleSimpleDialog_log (env : Env) (d : Dialog) (filename : String)
    (surf : ManagedSurface) (w : World) :
    (handleSimpleDialog env d filename surf w).log =
      w.log ++ ([.dialogOpen d, .reflowLayout d, .redrawFull,
          .dumpFileOpen ("snapshots/" ++ filename)] ++
        (if env.openOk w.opens ("snapshots/" ++ filename) then
          [.writePNG ("snapshots/" ++ filename) surf, .finalize ("snapshots/" ++ filename),
            .dumpFileClose ("snapshots/" ++ filename), .warning ("Dumped " ++ filename)]
        else []) ++ [.dialogClose d]) := by
  unfold handleSimpleDialog
  simp [saveGUISnapshot_log]

theorem handleSimpleDialog_extends (env : Env) (d : Dialog) (filename : String)
    (surf : ManagedSurface) (w : World) : Extends w (handleSimpleDialog env d filename surf w) :=
  ⟨_, handleSimpleDialog_log env d filename surf w⟩

@[simp] theorem observe_handleSimpleDialog (env : Env) (d : Dialog) (filename : String)
    (surf : ManagedSurface) (w : World) :
    observe (handleSimpleDialog env d filename surf w).log =
      observe w.log ++ capture d filename := by
  rw [handleSimpleDialog_log]
  by_cases h : env.openOk w.opens ("snapshots/" ++ filename) = true <;>
    simp [h, observe, capture, Event.outcomeFree]

/-! ## loopThroughTabs -/

theorem tabSteps_succ (env : Env) (d : Dialog) (lang name : String) (tabNo : Int) (n : Nat) :
    tabSteps env d lang name tabNo (n + 1) =
      (.setActiveTab d tabNo ::
        capture d (name ++ formatTabSuffix (tabNo + 1) env.overlayWidth env.overlayHeight lang))
      ++ tabSteps env d lang name (tabNo + 1) n := by
  unfold tabSteps
  rw [List.range_succ_eq_map, List.flatMap_cons, List.flatMap_map]
  simp only [Nat.cast_zero, add_zero]
  congr 1
  apply List.flatMap_congr
  intro i _
  have h : tabNo + ((i + 1 : Nat) : Int) = tabNo + 1 + (i : Int) := by push_cast; ring
  simp only [Nat.succ_eq_add_one, h]

theorem observe_tabLoop (env : Env) (d : Dialog) (lang : String) (surf : ManagedSurface)
    (name : String) (tabCount : Int) (n : Nat) :
    ∀ (tabNo : Int) (w : World), (tabCount - tabNo).toNat = n →
      observe (tabLoop env d lang surf name tabCount tabNo w).log =
        observe w.log ++ tabSteps env d lang name tabNo n := by
  induction n with
  | zero =>
    intro tabNo w hn
    have h : ¬ tabNo < tabCount := by omega
    rw [tabLoop]
    simp [h, tabSteps]
  | succ n ih =>
    intro tabNo w hn
    have h : tabNo < tabCount := by omega
    rw [tabLoop]
    simp only [h, dite_true]
    rw [ih (tabNo + 1) _ (by omega), observe_handleSimpleDialog, emit_log, observe_append,
      tabSteps_succ]
    simp [observe, Event.outcomeFree]

theorem tabLoop_extends (env : Env) (d : Dialog) (lang : String) (surf : ManagedSurface)
    (name : String) (tabCount : Int) (n : Nat) :
    ∀ (tabNo : Int) (w : World), (tabCount - tabNo).toNat = n →
      Extends w (tabLoop env d lang surf name tabCount tabNo w) := by
  induction n with
  | zero =>
    intro tabNo w hn
    have h : ¬ tabNo < tabCount := by omega
    rw [tabLoop]
    simp only [h, dite_false]
    exact Extends.refl w
  | succ n ih =>
    intro tabNo w hn
    have h : tabNo < tabCount := by omega
    rw [tabLoop]
    simp only [h, dite_true]
    exact ((emit_extends w _).trans (handleSimpleDialog_extends _ _ _ _ _)).trans
      (ih (tabNo + 1) _ (by omega))

theorem observe_loopThroughTabs (env : Env) (d : Dialog) (lang : String) (surf : ManagedSurface)
    (name : String) (w : World) :
    observe (loopThroughTabs env d lang surf name w).log =
      observe w.log ++ ([.dialogOpen d] ++ tabSteps env d lang name 0 (tabTrips (env.findTabWidget d))
        ++ [.dialogClose d]) := by
  unfold loopThroughTabs
  cases hfw : env.findTabWidget d with
  | none => simp [tabTrips, tabSteps, observe, Event.outcomeFree]
  | some tabCount =>
    simp only [emit_log, observe_append, tabTrips]
    rw [observe_tabLoop env d lang surf name tabCount tabCount.toNat 0 _ (by simp)]
    simp [observe, Event.outcomeFree]

theorem loopThroughTabs_extends (env : Env) (d : Dialog) (lang : String) (surf : ManagedSurface)
    (name : String) (w : World) : Extends w (loopThroughTabs env d lang surf name w) := by
  unfold loopThroughTabs
  cases hfw : env.findTabWidget d with
  | none => exact (emit_extends w _).trans (emit_extends _ _)
  | some tabCount =>
    exact ((emit_extends w _).trans
      (tabLoop_extends env d lang surf name tabCount tabCount.toNat 0 _ (by simp))).trans
      (emit_extends _ _)

/-! ## dumpDialogs -/

theorem observe_dumpDialogs (env : Env) (lang message : String) (width height : Int) (w : World) :
    observe (dumpDialogs env lang message width height w).log =
      observe w.log ++ catalogSteps env lang message width height := by
  unfold dumpDialogs catalogSteps
  cases env.build.useTranslation <;> cases env.build.useCloud <;> cases env.build.useHttp <;>
    cases env.build.useFluidsynth <;>
    simp only [if_true, if_false, Bool.false_eq_true, observe_loopThroughTabs,
      observe_handleSimpleDialog, emit_log, observe_append, List.append_assoc, List.nil_append,
      List.append_nil] <;>
    rfl

theorem extends_ite (c : Prop) [Decidable c] {w a b : World} (ha : Extends w a)
    (hb : Extends w b) : Extends w (if c then a else b) := by
  split <;> assumption

theorem dumpDialogs_extends (env : Env) (lang message : String) (width height : Int) (w : World) :
    Extends w (dumpDialogs env lang message width height w) := by
  unfold dumpDialogs
  dsimp only
  refine Extends.trans ?_ (loopThroughTabs_extends _ _ _ _ _ _)
  refine Extends.trans ?_ (handleSimpleDialog_extends _ _ _ _ _)
  refine Extends.trans ?_ (handleSimpleDialog_extends _ _ _ _ _)
  refine Extends.trans ?_ (handleSimpleDialog_extends _ _ _ _ _)
  refine Extends.trans ?_ (handleSimpleDialog_extends _ _ _ _ _)
  refine Extends.trans ?_ (extends_ite _ (handleSimpleDialog_extends _ _ _ _ _) (Extends.refl _))
  refine Extends.trans ?_ (extends_ite _ ((handleSimpleDialog_extends _ _ _ _ _).trans
    (handleSimpleDialog_extends _ _ _ _ _)) (Extends.refl _))
  refine Extends.trans ?_ (extends_ite _ ((handleSimpleDialog_extends _ _ _ _ _).trans
    (handleSimpleDialog_extends _ _ _ _ _)) (Extends.refl _))
  refine Extends.trans ?_ (handleSimpleDialog_extends _ _ _ _ _)
  refine Extends.trans ?_ (handleSimpleDialog_extends _ _ _ _ _)
  exact extends_ite _ (emit_extends _ _) (Extends.refl _)

/-! ## dumpAllDialogs -/

theorem observe_foldl {α : Type} (step : World → α → World) (g : α → List Event)
    (h : ∀ w x, observe (step w x).log = observe w.log ++ g x) :
    ∀ (xs : List α) (w : World),
      observe (xs.foldl step w).log = observe w.log ++ xs.flatMap g := by
  intro xs
  induction xs with
  | nil => intro w; simp
  | cons x xs ih =>
    intro w
    rw [List.foldl_cons, ih, h, List.flatMap_cons, List.append_assoc]

theorem foldl_extends {α : Type} (step : World → α → World)
    (h : ∀ w x, Extends w (step w x)) :
    ∀ (xs : List α) (w : World), Extends w (xs.foldl step w) := by
  intro xs
  induction xs with
  | nil => intro w; exact Extends.refl w
  | cons x xs ih =>
    intro w
    rw [List.foldl_cons]
    exact (h w x).trans (ih _)

theorem observe_dumpAllDialogs (env : Env) (message : String) (w : World) :
    observe (dumpAllDialogs env message w).log = observe w.log ++ sweepSteps env message := by
  unfold dumpAllDialogs sweepSteps
  simp only [emit_log, observe_append]
  rw [observe_foldl _ (fun res : Int × Int =>
      .updateSurfaceDimensions res.1 res.2 env.overlayFormat ::
        env.languageList.flatMap fun lang => catalogSteps env message lang res.1 res.2)]
  · cases env.snapshotsIsDirectory <;> simp [observe, Event.outcomeFree]
  · intro w2 res
    rw [observe_foldl _ (fun lang => catalogSteps env message lang res.1 res.2)]
    · simp [observe, Event.outcomeFree]
    · intro w3 lang
      exact observe_dumpDialogs env message lang res.1 res.2 w3

theorem dumpAllDialogs_extends (env : Env) (message : String) (w : World) :
    Extends w (dumpAllDialogs env message w) := by
  unfold dumpAllDialogs
  dsimp only
  refine Extends.trans ?_ (emit_extends _ _)
  refine Extends.trans ?_ (foldl_extends _ ?_ _ _)
  · exact extends_ite _ (emit_extends _ _) (Extends.refl _)
  · intro w2 res
    refine Extends.trans (emit_extends _ _) (foldl_extends _ ?_ _ _)
    intro w3 lang
    exact dumpDialogs_extends env message lang res.1 res.2 w3

/-! ## What each procedure performs -/

theorem performed_saveGUISnapshot (env : Env) (surf : ManagedSurface) (filename : String)
    (w : World) :
    performed (saveGUISnapshot env surf filename) w =
      .dumpFileOpen ("snapshots/" ++ filename) ::
        if env.openOk w.opens ("snapshots/" ++ filename) then
          [.writePNG ("snapshots/" ++ filename) surf, .finalize ("snapshots/" ++ filename),
            .dumpFileClose ("snapshots/" ++ filename), .warning ("Dumped " ++ filename)]
        else [] :=
  performed_eq (saveGUISnapshot_log env surf filename w)

theorem performed_handleSimpleDialog (env : Env) (d : Dialog) (filename : String)
    (surf : ManagedSurface) (w : World) :
    performed (handleSimpleDialog env d filename surf) w =
      [.dialogOpen d, .reflowLayout d, .redrawFull, .dumpFileOpen ("snapshots/" ++ filename)] ++
        (if env.openOk w.opens ("snapshots/" ++ filename) then
          [.writePNG ("snapshots/" ++ filename) surf, .finalize ("snapshots/" ++ filename),
            .dumpFileClose ("snapshots/" ++ filename), .warning ("Dumped " ++ filename)]
        else []) ++ [.dialogClose d] :=
  performed_eq (handleSimpleDialog_log env d filename surf w)

theorem observe_performed_loopThroughTabs (env : Env) (d : Dialog) (lang : String)
    (surf : ManagedSurface) (name : String) (w : World) :
    observe (performed (loopThroughTabs env d lang surf name) w) =
      [.dialogOpen d] ++ tabSteps env d lang name 0 (tabTrips (env.findTabWidget d))
        ++ [.dialogClose d] :=
  observe_performed (loopThroughTabs_extends env d lang surf name w)
    (observe_loopThroughTabs env d lang surf name w)

theorem observe_performed_dumpDialogs (env : Env) (lang message : String) (width height : Int)
    (w : World) :
    observe (performed (dumpDialogs env lang message width height) w) =
      catalogSteps env lang message width height :=
  observe_performed (dumpDialogs_extends env lang message width height w)
    (observe_dumpDialogs env lang message width height w)

theorem observe_performed_dumpAllDialogs (env : Env) (message : String) (w : World) :
    observe (performed (dumpAllDialogs env message) w) = sweepSteps env message :=
  observe_performed (dumpAllDialogs_extends env message w) (observe_dumpAllDialogs env message w)

theorem attempts_performed_dumpDialogs (env : Env) (lang message : String) (width height : Int)
    (w : World) :
    attempts (performed (dumpDialogs env lang message width height) w) =
      attempts (catalogSteps env lang message width height) := by
  rw [← attempts_observe, observe_performed_dumpDialogs]

theorem attempts_performed_dumpAllDialogs (env : Env) (message : String) (w : World) :
    attempts (performed (dumpAllDialogs env message) w) = attempts (sweepSteps env message) := by
  rw [← attempts_observe, observe_performed_dumpAllDialogs]

theorem passes_performed_dumpAllDialogs (env : Env) (message : String) (w : World) :
    passes (performed (dumpAllDialogs env message) w) = passes (sweepSteps env message) := by
  rw [← passes_observe, observe_performed_dumpAllDialogs]

/-! ## saveGUISnapshot and handleSimpleDialog: the claims -/

/-- C3: whatever the outcome of the file open, `handleSimpleDialog` performs
`open`, `reflowLayout`, `redrawFull`, then what `saveGUISnapshot(surf, filename)`
performs, then `close`, and nothing else; its lifecycle steps and its snapshot
attempt are the five steps, each once and in this order; the snapshot step makes
exactly one open attempt, on `snapshots/filename`; the last event is the `close`
of the dialog, and the dialog is open as many times afterwards as before (closed
when it started closed). -/
theorem handleSimpleDialog_five_steps (env : Env) (d : Dialog) (filename : String)
    (surf : ManagedSurface) (w : World) :
    performed (handleSimpleDialog env d filename surf) w =
        [.dialogOpen d, .reflowLayout d, .redrawFull]
        ++ performed (saveGUISnapshot env surf filename)
            (((w.emit (.dialogOpen d)).emit (.reflowLayout d)).emit .redrawFull)
        ++ [.dialogClose d]
    ∧ observe (performed (handleSimpleDialog env d filename surf) w) =
        [.dialogOpen d, .reflowLayout d, .redrawFull, .dumpFileOpen ("snapshots/" ++ filename),
          .dialogClose d]
    ∧ attempts (performed (saveGUISnapshot env surf filename)
          (((w.emit (.dialogOpen d)).emit (.reflowLayout d)).emit .redrawFull)) =
        ["snapshots/" ++ filename]
    ∧ (performed (handleSimpleDialog env d filename surf) w).getLast? = some (.dialogClose d)
    ∧ ∀ n, openDepth d (performed (handleSimpleDialog env d filename surf) w) n = n := by
  rw [performed_handleSimpleDialog, performed_saveGUISnapshot]
  simp only [emit_opens]
  by_cases h : env.openOk w.opens ("snapshots/" ++ filename) = true <;>
    simp [h, observe, attempts, openDepth, Event.outcomeFree]

/-- C9: `saveGUISnapshot(surf, name)` makes its one open attempt on
`snapshots/name` whatever the outcome; when the open fails it performs nothing
else (no write) and returns; and for every `dumpDialogs` call, the dialog
lifecycle events and the snapshot attempts, in order, are the same whatever the
outcomes of the individual file opens. -/
theorem dumpDialogs_independent_of_open_outcomes (env : Env) (surf : ManagedSurface)
    (name : String) (w : World) :
    attempts (performed (saveGUISnapshot env surf name) w) = ["snapshots/" ++ name]
    ∧ (env.openOk w.opens ("snapshots/" ++ name) = false →
        performed (saveGUISnapshot env surf name) w = [.dumpFileOpen ("snapshots/" ++ name)])
    ∧ ∀ (openOk2 : Nat → String → Bool) (lang message : String) (width height : Int)
        (w1 w2 : World),
        observe (performed (dumpDialogs env lang message width height) w1) =
          observe (performed
            (dumpDialogs { env with openOk := openOk2 } lang message width height) w2) := by
  refine ⟨?_, ?_, ?_⟩
  · rw [performed_saveGUISnapshot]
    by_cases h : env.openOk w.opens ("snapshots/" ++ name) = true <;> simp [h, attempts]
  · intro h
    rw [performed_saveGUISnapshot]
    simp [h]
  · intro openOk2 lang message width height w1 w2
    rw [observe_performed_dumpDialogs, observe_performed_dumpDialogs]
    rfl

/-- C9, at a sample input: every open fails; the other run has every open succeed. -/
theorem dumpDialogs_independent_of_open_outcomes_witness :
    (sampleEnv ["en"] none false).openOk World.init.opens ("snapshots/" ++ "a.png") = false
    ∧ performed (saveGUISnapshot (sampleEnv ["en"] none false) ⟨0⟩ "a.png") World.init =
        [.dumpFileOpen "snapshots/a.png"]
    ∧ observe (performed
          (dumpDialogs (sampleEnv ["en"] none false) "en" "hello" 320 200) World.init) =
        observe (performed
          (dumpDialogs { sampleEnv ["en"] none false with openOk := fun _ _ => true }
            "en" "hello" 320 200) World.init) :=
  ⟨by decide,
    (dumpDialogs_independent_of_open_outcomes (sampleEnv ["en"] none false) ⟨0⟩ "a.png"
      World.init).2.1 (by decide),
    (dumpDialogs_independent_of_open_outcomes (sampleEnv ["en"] none false) ⟨0⟩ "a.png"
      World.init).2.2 (fun _ _ => true) "en" "hello" 320 200 World.init World.init⟩

/-- C10, as stated, fails: when the open of `snapshots/messageDialog-320x200-en.png`
fails, `saveGUISnapshot` logs nothing. -/
theorem saveGUISnapshot_failure_not_logged :
    (sampleEnv ["en"] none false).openOk World.init.opens
        "snapshots/messageDialog-320x200-en.png" = false
    ∧ warnings (performed
        (saveGUISnapshot (sampleEnv ["en"] none false) ⟨0⟩ "messageDialog-320x200-en.png")
        World.init) = [] := by
  decide

/-- C10, amended: `saveGUISnapshot` logs exactly one line, `Dumped` followed by the
file name, when the output path was opened, and logs nothing when the open fails. -/
theorem saveGUISnapshot_logs_on_success_only (env : Env) (surf : ManagedSurface)
    (name : String) (w : World) :
    warnings (performed (saveGUISnapshot env surf name) w) =
      if env.openOk w.opens ("snapshots/" ++ name) then ["Dumped " ++ name] else [] := by
  rw [performed_saveGUISnapshot]
  by_cases h : env.openOk w.opens ("snapshots/" ++ name) = true <;> simp [h, warnings]

/-! ## loopThroughTabs: the claims -/

theorem attempts_append (a b : List Event) : attempts (a ++ b) = attempts a ++ attempts b := by
  simp [attempts]

theorem attempts_tabSteps (env : Env) (d : Dialog) (lang name : String) (tabNo : Int) (n : Nat) :
    attempts (tabSteps env d lang name tabNo n) =
      (List.range n).map fun (i : Nat) =>
        "snapshots/" ++ (name
          ++ formatTabSuffix (tabNo + (i : Int) + 1) env.overlayWidth env.overlayHeight lang) := by
  induction n with
  | zero => rfl
  | succ n ih =>
    unfold tabSteps at ih ⊢
    rw [List.range_succ, List.flatMap_append, attempts_append, ih, List.map_append]
    simp [attempts, capture]

theorem count_open_tabSteps (env : Env) (d : Dialog) (lang name : String) (tabNo : Int) (n : Nat) :
    (tabSteps env d lang name tabNo n).count (.dialogOpen d) = n := by
  induction n with
  | zero => rfl
  | succ n ih =>
    unfold tabSteps at ih ⊢
    rw [List.range_succ, List.flatMap_append, List.count_append, ih]
    simp [capture, List.count_cons]

theorem count_close_tabSteps (env : Env) (d : Dialog) (lang name : String) (tabNo : Int) (n : Nat) :
    (tabSteps env d lang name tabNo n).count (.dialogClose d) = n := by
  induction n with
  | zero => rfl
  | succ n ih =>
    unfold tabSteps at ih ⊢
    rw [List.range_succ, List.flatMap_append, List.count_append, ih]
    simp [capture, List.count_cons]

theorem loopThroughTabs_log (env : Env) (d : Dialog) (lang : String) (surf : ManagedSurface)
    (name : String) (w : World) :
    ∃ mid, (loopThroughTabs env d lang surf name w).log =
      w.log ++ ([.dialogOpen d] ++ mid ++ [.dialogClose d]) := by
  unfold loopThroughTabs
  cases hfw : env.findTabWidget d with
  | none => exact ⟨[], by simp⟩
  | some tabCount =>
    obtain ⟨mid, hmid⟩ := tabLoop_extends env d lang surf name tabCount tabCount.toNat 0
      (w.emit (.dialogOpen d)) (by simp)
    exact ⟨mid, by simp [hmid]⟩

theorem tabLoop_done (env : Env) (d : Dialog) (lang : String) (surf : ManagedSurface)
    (name : String) (tabCount tabNo : Int) (w : World) (h : ¬ tabNo < tabCount) :
    tabLoop env d lang surf name tabCount tabNo w = w := by
  rw [tabLoop]
  simp [h]

theorem performed_loopThroughTabs_of_no_trip (env : Env) (d : Dialog) (lang : String)
    (surf : ManagedSurface) (name : String) (w : World)
    (h : tabTrips (env.findTabWidget d) = 0) :
    performed (loopThroughTabs env d lang surf name) w = [.dialogOpen d, .dialogClose d] := by
  apply performed_eq
  unfold loopThroughTabs
  cases hfw : env.findTabWidget d with
  | none => simp
  | some tabCount =>
    rw [hfw] at h
    have hc : ¬ (0 : Int) < tabCount := by
      simp only [tabTrips] at h
      omega
    simp [tabLoop_done _ _ _ _ _ _ _ _ hc]

theorem tabTrips_some_nat (N : Nat) : tabTrips (some (N : Int)) = N := by
  simp [tabTrips]

/-- C2, as stated, fails: with two tabs the dialog is opened three times and
closed three times by `loopThroughTabs`, not once. -/
theorem loopThroughTabs_reopens :
    (performed (loopThroughTabs (sampleEnv ["en"] (some 2) true) (.globalOptionsDialog "Launcher")
        "en" ⟨0⟩ "GlobalOptionDialog") World.init).count
        (.dialogOpen (.globalOptionsDialog "Launcher")) = 3
    ∧ (performed (loopThroughTabs (sampleEnv ["en"] (some 2) true)
        (.globalOptionsDialog "Launcher") "en" ⟨0⟩ "GlobalOptionDialog") World.init).count
        (.dialogClose (.globalOptionsDialog "Launcher")) = 3 := by
  rw [← count_open_observe, ← count_close_observe, observe_performed_loopThroughTabs]
  decide

/-- C2, amended: the trace of `loopThroughTabs` starts with the `open` and ends
with the `close` of the dialog, and for a tab widget with `N` tabs it holds
exactly `N + 1` `open` and `N + 1` `close` events of the dialog (one pair around
the loop and one pair per tab, from `handleSimpleDialog`); when no tab widget is
found it holds exactly one of each. -/
theorem loopThroughTabs_open_close_count (env : Env) (d : Dialog) (lang : String)
    (surf : ManagedSurface) (name : String) (w : World) :
    (∀ N : Nat, env.findTabWidget d = some (N : Int) →
        (performed (loopThroughTabs env d lang surf name) w).count (.dialogOpen d) = N + 1
        ∧ (performed (loopThroughTabs env d lang surf name) w).count (.dialogClose d) = N + 1)
    ∧ (env.findTabWidget d = none →
        (performed (loopThroughTabs env d lang surf name) w).count (.dialogOpen d) = 1
        ∧ (performed (loopThroughTabs env d lang surf name) w).count (.dialogClose d) = 1)
    ∧ (performed (loopThroughTabs env d lang surf name) w).head? = some (.dialogOpen d)
    ∧ (performed (loopThroughTabs env d lang surf name) w).getLast? = some (.dialogClose d) := by
  have hcount : ∀ n, tabTrips (env.findTabWidget d) = n →
      (performed (loopThroughTabs env d lang surf name) w).count (.dialogOpen d) = n + 1
      ∧ (performed (loopThroughTabs env d lang surf name) w).count (.dialogClose d) = n + 1 := by
    intro n hn
    rw [← count_open_observe, ← count_close_observe, observe_performed_loopThroughTabs, hn]
    simp [List.count_append, count_open_tabSteps, count_close_tabSteps, List.count_cons]
  refine ⟨?_, ?_, ?_, ?_⟩
  · intro N hN
    exact hcount N (by rw [hN, tabTrips_some_nat])
  · intro hnone
    exact hcount 0 (by rw [hnone]; rfl)
  · obtain ⟨mid, hmid⟩ := loopThroughTabs_log env d lang surf name w
    rw [performed_eq hmid]
    simp
  · obtain ⟨mid, hmid⟩ := loopThroughTabs_log env d lang surf name w
    rw [performed_eq hmid, List.getLast?_concat]

/-- C2, amended, at a sample input: two tabs, three `open` and three `close`. -/
theorem loopThroughTabs_open_close_count_witness :
    (sampleEnv ["en"] (some 2) true).findTabWidget (.globalOptionsDialog "Launcher")
        = some ((2 : Nat) : Int)
    ∧ (performed (loopThroughTabs (sampleEnv ["en"] (some 2) true)
        (.globalOptionsDialog "Launcher") "en" ⟨0⟩ "GlobalOptionDialog") World.init).count
        (.dialogOpen (.globalOptionsDialog "Launcher")) = 2 + 1
    ∧ (sampleEnv ["en"] none true).findTabWidget (.globalOptionsDialog "Launcher") = none
    ∧ (performed (loopThroughTabs (sampleEnv ["en"] none true)
        (.globalOptionsDialog "Launcher") "en" ⟨0⟩ "GlobalOptionDialog") World.init).count
        (.dialogClose (.globalOptionsDialog "Launcher")) = 1 :=
  ⟨rfl,
    ((loopThroughTabs_open_close_count (sampleEnv ["en"] (some 2) true)
      (.globalOptionsDialog "Launcher") "en" ⟨0⟩ "GlobalOptionDialog" World.init).1 2 rfl).1,
    rfl,
    ((loopThroughTabs_open_close_count (sampleEnv ["en"] none true)
      (.globalOptionsDialog "Launcher") "en" ⟨0⟩ "GlobalOptionDialog" World.init).2.1 rfl).2⟩

/-- C4: when the tab widget of the dialog is found with `N` tabs,
`loopThroughTabs` makes exactly `N` snapshot attempts, the `i`-th one (from 0, in
ascending order) on `snapshots/` followed by the base name and
`-{i+1}-{ow}x{oh}-{lang}.png`, and each is preceded by `setActiveTab(i)`; when
the tab widget is not found, or has no tab, it only opens and closes the
dialog. -/
theorem loopThroughTabs_attempts (env : Env) (d : Dialog) (lang : String)
    (surf : ManagedSurface) (name : String) (w : World) :
    (∀ N : Nat, env.findTabWidget d = some (N : Int) →
        attempts (performed (loopThroughTabs env d lang surf name) w) =
          (List.range N).map (fun (i : Nat) =>
            "snapshots/" ++ (name
              ++ formatTabSuffix ((i : Int) + 1) env.overlayWidth env.overlayHeight lang))
        ∧ observe (performed (loopThroughTabs env d lang surf name) w) =
          [.dialogOpen d]
          ++ (List.range N).flatMap (fun (i : Nat) =>
            [.setActiveTab d (i : Int), .dialogOpen d, .reflowLayout d, .redrawFull,
              .dumpFileOpen ("snapshots/" ++ (name
                ++ formatTabSuffix ((i : Int) + 1) env.overlayWidth env.overlayHeight lang)),
              .dialogClose d])
          ++ [.dialogClose d])
    ∧ (env.findTabWidget d = none ∨ env.findTabWidget d = some 0 →
        performed (loopThroughTabs env d lang surf name) w = [.dialogOpen d, .dialogClose d]) := by
  refine ⟨?_, ?_⟩
  · intro N hN
    constructor
    · rw [← attempts_observe, observe_performed_loopThroughTabs, hN, tabTrips_some_nat,
        attempts_append, attempts_append, attempts_tabSteps]
      simp [attempts]
    · rw [observe_performed_loopThroughTabs, hN, tabTrips_some_nat]
      simp [tabSteps, capture]
  · intro h
    apply performed_loopThroughTabs_of_no_trip
    rcases h with h | h <;> rw [h] <;> rfl

/-- C4, at sample inputs: two tabs on a 640x480 overlay, and no tab widget. -/
theorem loopThroughTabs_attempts_witness :
    (sampleEnv ["en"] (some 2) true).findTabWidget (.globalOptionsDialog "Launcher")
        = some ((2 : Nat) : Int)
    ∧ attempts (performed (loopThroughTabs (sampleEnv ["en"] (some 2) true)
        (.globalOptionsDialog "Launcher") "en" ⟨0⟩ "GlobalOptionDialog") World.init) =
        ["snapshots/GlobalOptionDialog-1-640x480-en.png",
          "snapshots/GlobalOptionDialog-2-640x480-en.png"]
    ∧ (sampleEnv ["en"] none true).findTabWidget (.globalOptionsDialog "Launcher") = none
    ∧ performed (loopThroughTabs (sampleEnv ["en"] none true)
        (.globalOptionsDialog "Launcher") "en" ⟨0⟩ "GlobalOptionDialog") World.init =
        [.dialogOpen (.globalOptionsDialog "Launcher"),
          .dialogClose (.globalOptionsDialog "Launcher")] :=
  ⟨rfl,
    ((loopThroughTabs_attempts (sampleEnv ["en"] (some 2) true)
      (.globalOptionsDialog "Launcher") "en" ⟨0⟩ "GlobalOptionDialog" World.init).1 2 rfl).1.trans
      (by decide),
    rfl,
    (loopThroughTabs_attempts (sampleEnv ["en"] none true)
      (.globalOptionsDialog "Launcher") "en" ⟨0⟩ "GlobalOptionDialog" World.init).2 (Or.inl rfl)⟩

/-! ## dumpDialogs: the claims -/

theorem length_attempts_tabSteps (env : Env) (d : Dialog) (lang name : String) (tabNo : Int)
    (n : Nat) : (attempts (tabSteps env d lang name tabNo n)).length = n := by
  rw [attempts_tabSteps]
  simp

/-- C5: the lifecycle steps and snapshot attempts of one `dumpDialogs` call are, in
this order: the language switch (when translations are compiled in), one capture
of the message dialog, one of the about dialog, one each of the cloud connection
wizard and the remote browser iff cloud is on, one each of the icon pack and
shader pack download dialogs iff http is on, one of the FluidSynth settings
dialog iff fluidsynth is on, one each of the theme browser, the directory
browser, the chooser and the mass-add dialog, and last what `loopThroughTabs`
performs on the global options dialog.  A gated dialog contributes no snapshot
attempt when its flag is off, and the number of attempts is 6, plus 2 for cloud,
2 for http, 1 for fluidsynth and one per tab. -/
theorem dumpDialogs_catalog_order (env : Env) (lang message : String) (width height : Int)
    (w w2 : World) :
    observe (performed (dumpDialogs env lang message width height) w) =
      (if env.build.useTranslation then [.setLanguage lang] else [])
      ++ capture (.messageDialog message) ("messageDialog" ++ formatSuffix width height lang)
      ++ capture .aboutDialog ("aboutDialog" ++ formatSuffix width height lang)
      ++ (if env.build.useCloud then
            capture .cloudConnectionWizard
              ("cloudConnectingWizard" ++ formatSuffix width height lang)
            ++ capture (.remoteBrowserDialog "Select directory with game data")
              ("remoteBrowserDialog" ++ formatSuffix width height lang)
          else [])
      ++ (if env.build.useHttp then
            capture (.downloadPacksDialog "icon packs" "LIST" "gui-icons*.dat")
              ("downloadIconPacksDialog" ++ formatSuffix width height lang)
            ++ capture (.downloadPacksDialog "shader packs" "LIST-SHADERS" "shaders*.dat")
              ("downloadShaderPacksDialog" ++ formatSuffix width height lang)
          else [])
      ++ (if env.build.useFluidsynth then
            capture .fluidSynthSettingsDialog
              ("fluidSynthSettings-" ++ formatSuffix width height lang)
          else [])
      ++ capture .themeBrowser ("themeBrowser-" ++ formatSuffix width height lang)
      ++ capture (.browserDialog "Select directory with game data" true)
          ("browserDialog-" ++ formatSuffix width height lang)
      ++ capture (.chooserDialog "Pick the game:")
          ("chooserDialog-" ++ formatSuffix width height lang)
      ++ capture (.massAddDialog ".") ("massAddDialog-" ++ formatSuffix width height lang)
      ++ observe (performed (loopThroughTabs env (.globalOptionsDialog "Launcher") lang
          env.screenSurface "GlobalOptionDialog") w2)
    ∧ (attempts (performed (dumpDialogs env lang message width height) w)).length =
      6 + (if env.build.useCloud then 2 else 0) + (if env.build.useHttp then 2 else 0)
        + (if env.build.useFluidsynth then 1 else 0)
        + tabTrips (env.findTabWidget (.globalOptionsDialog "Launcher")) := by
  constructor
  · rw [observe_performed_dumpDialogs, observe_performed_loopThroughTabs]
    rfl
  · rw [attempts_performed_dumpDialogs]
    unfold catalogSteps
    simp only [attempts_append, List.length_append, length_attempts_tabSteps]
    cases env.build.useTranslation <;> cases env.build.useCloud <;> cases env.build.useHttp <;>
      cases env.build.useFluidsynth <;>
      simp [attempts, capture]

/-- C8, on the code: with every feature compiled in and two tabs,
`dumpDialogs("en", "hello", 320, 200)` attempts these files, in this order.  The
names of the FluidSynth settings, theme browser, directory browser, chooser and
mass-add dialogs have two `-` between the identifier and the resolution, and
the names of the tabs carry the overlay size, not `width` and `height`. -/
theorem dumpDialogs_names_at_sample :
    attempts (performed (dumpDialogs (sampleEnv ["en"] (some 2) true) "en" "hello" 320 200)
        World.init) =
      ["snapshots/messageDialog-320x200-en.png",
        "snapshots/aboutDialog-320x200-en.png",
        "snapshots/cloudConnectingWizard-320x200-en.png",
        "snapshots/remoteBrowserDialog-320x200-en.png",
        "snapshots/downloadIconPacksDialog-320x200-en.png",
        "snapshots/downloadShaderPacksDialog-320x200-en.png",
        "snapshots/fluidSynthSettings--320x200-en.png",
        "snapshots/themeBrowser--320x200-en.png",
        "snapshots/browserDialog--320x200-en.png",
        "snapshots/chooserDialog--320x200-en.png",
        "snapshots/massAddDialog--320x200-en.png",
        "snapshots/GlobalOptionDialog-1-640x480-en.png",
        "snapshots/GlobalOptionDialog-2-640x480-en.png"] := by
  rw [attempts_performed_dumpDialogs]
  decide

/-! ## dumpAllDialogs: the claims -/

theorem flatMap_single {α : Type} (xs : List α) : (xs.flatMap fun x => [x]) = xs := by
  induction xs with
  | nil => rfl
  | cons x xs ih => rw [List.flatMap_cons, ih]; rfl

theorem flatMap_empty {α β : Type} (xs : List α) : (xs.flatMap fun _ => ([] : List β)) = [] := by
  induction xs with
  | nil => rfl
  | cons x xs ih => rw [List.flatMap_cons, ih]; rfl

theorem passes_append (a b : List Event) : passes (a ++ b) = passes a ++ passes b := by
  simp [passes]

theorem passes_flatMap {α : Type} (xs : List α) (g : α → List Event) :
    passes (xs.flatMap g) = xs.flatMap fun x => passes (g x) := by
  induction xs with
  | nil => rfl
  | cons x xs ih => rw [List.flatMap_cons, passes_append, ih, List.flatMap_cons]

theorem passes_tabSteps (env : Env) (launcher lang name : String) (tabNo : Int) (n : Nat) :
    passes (tabSteps env (.globalOptionsDialog launcher) lang name tabNo n) = [] := by
  unfold tabSteps
  rw [passes_flatMap]
  simp [passes, capture]

theorem passes_catalogSteps (env : Env) (lang message : String) (width height : Int) :
    passes (catalogSteps env lang message width height) = [message] := by
  unfold catalogSteps
  simp only [passes_append, passes_tabSteps]
  cases env.build.useTranslation <;> cases env.build.useCloud <;> cases env.build.useHttp <;>
    cases env.build.useFluidsynth <;>
    simp [passes, capture]

theorem sweepLevel_tabSteps (env : Env) (d : Dialog) (lang name : String) (tabNo : Int)
    (n : Nat) : (tabSteps env d lang name tabNo n).filter Event.sweepLevel = [] := by
  unfold tabSteps
  rw [List.filter_flatMap]
  simp [capture, Event.sweepLevel]

theorem sweepLevel_catalogSteps (env : Env) (lang message : String) (width height : Int) :
    (catalogSteps env lang message width height).filter Event.sweepLevel = [] := by
  unfold catalogSteps
  simp only [List.filter_append, sweepLevel_tabSteps]
  cases env.build.useTranslation <;> cases env.build.useCloud <;> cases env.build.useHttp <;>
    cases env.build.useFluidsynth <;>
    simp [capture, Event.sweepLevel]

theorem dumpAllDialogs_log (env : Env) (message : String) (w : World) :
    ∃ mid, (dumpAllDialogs env message w).log = w.log ++ (mid ++ [.quit]) := by
  unfold dumpAllDialogs
  dsimp only
  have h : Extends w (resolutions.foldl (fun w res =>
      (env.languageList).foldl (fun w lang => dumpDialogs env message lang res.1 res.2 w)
        (w.emit (.updateSurfaceDimensions res.1 res.2 env.overlayFormat)))
      (if (!env.snapshotsIsDirectory) = true then w.emit (.createDirectory "snapshots")
        else w)) := by
    refine Extends.trans ?_ (foldl_extends _ ?_ _ _)
    · exact extends_ite _ (emit_extends _ _) (Extends.refl _)
    · intro w2 res
      refine Extends.trans (emit_extends _ _) (foldl_extends _ ?_ _ _)
      intro w3 lang
      exact dumpDialogs_extends env message lang res.1 res.2 w3
  obtain ⟨mid, hmid⟩ := h
  exact ⟨mid, by rw [emit_log, hmid, List.append_assoc]⟩

/-- C6: `dumpAllDialogs` first creates the `snapshots` directory when it is not
there, then visits the resolutions 320x200, 320x240, 640x400, 640x480, 800x600 in
this order; for each it calls `updateSurfaceDimensions(w, h, format)` once, with
the overlay format, before the passes of that resolution, and then runs one
`dumpDialogs(message, lang, w, h)` pass per language, in list order; the last
event is the one `g_system->quit()`.  The calls made outside the passes are
exactly the directory creation, the five `updateSurfaceDimensions` and `quit`;
there are `5 * n` passes for `n` languages. -/
theorem dumpAllDialogs_sweep (env : Env) (message : String) (w : World) :
    observe (performed (dumpAllDialogs env message) w) =
      (if env.snapshotsIsDirectory then [] else [.createDirectory "snapshots"])
      ++ ([(320, 200), (320, 240), (640, 400), (640, 480), (800, 600)] : List (Int × Int)).flatMap
          (fun res =>
            .updateSurfaceDimensions res.1 res.2 env.overlayFormat ::
              env.languageList.flatMap fun lang =>
                observe (performed (dumpDialogs env message lang res.1 res.2) World.init))
      ++ [.quit]
    ∧ (performed (dumpAllDialogs env message) w).filter Event.sweepLevel =
      (if env.snapshotsIsDirectory then [] else [.createDirectory "snapshots"])
      ++ [.updateSurfaceDimensions 320 200 env.overlayFormat,
          .updateSurfaceDimensions 320 240 env.overlayFormat,
          .updateSurfaceDimensions 640 400 env.overlayFormat,
          .updateSurfaceDimensions 640 480 env.overlayFormat,
          .updateSurfaceDimensions 800 600 env.overlayFormat,
          .quit]
    ∧ passes (performed (dumpAllDialogs env message) w) =
      env.languageList ++ env.languageList ++ env.languageList ++ env.languageList
        ++ env.languageList
    ∧ (passes (performed (dumpAllDialogs env message) w)).length = 5 * env.languageList.length
    ∧ (performed (dumpAllDialogs env message) w).getLast? = some .quit := by
  have hpasses : passes (performed (dumpAllDialogs env message) w) =
      env.languageList ++ env.languageList ++ env.languageList ++ env.languageList
        ++ env.languageList := by
    rw [passes_performed_dumpAllDialogs]
    unfold sweepSteps
    simp only [passes_append, passes_flatMap]
    have hinner : ∀ res : Int × Int,
        passes (.updateSurfaceDimensions res.1 res.2 env.overlayFormat ::
          env.languageList.flatMap fun lang => catalogSteps env message lang res.1 res.2) =
        env.languageList := by
      intro res
      rw [← List.singleton_append, passes_append, passes_flatMap]
      simp only [passes_catalogSteps, flatMap_single]
      rfl
    simp only [hinner]
    cases env.snapshotsIsDirectory <;> simp [passes, resolutions]
  refine ⟨?_, ?_, hpasses, ?_, ?_⟩
  · rw [observe_performed_dumpAllDialogs]
    simp only [observe_performed_dumpDialogs]
    rfl
  · rw [← sweepLevel_observe, observe_performed_dumpAllDialogs]
    unfold sweepSteps
    simp only [List.filter_append, List.filter_flatMap, List.filter_cons, sweepLevel_catalogSteps]
    cases env.snapshotsIsDirectory <;> simp [Event.sweepLevel, resolutions, flatMap_empty]
  · rw [hpasses]
    simp only [List.length_append]
    omega
  · obtain ⟨mid, hmid⟩ := dumpAllDialogs_log env message w
    rw [performed_eq hmid, List.getLast?_concat]

/-- C1, on the code: with the language list `["en"]` and the message `hello`,
`dumpAllDialogs` names the message and about dialog snapshots after the message,
not after the language, and builds every message dialog from `en`. -/
theorem dumpAllDialogs_suffix_carries_message :
    "snapshots/messageDialog-320x200-hello.png" ∈
        attempts (performed (dumpAllDialogs (sampleEnv ["en"] (some 2) true) "hello") World.init)
    ∧ "snapshots/aboutDialog-320x200-hello.png" ∈
        attempts (performed (dumpAllDialogs (sampleEnv ["en"] (some 2) true) "hello") World.init)
    ∧ "snapshots/messageDialog-320x200-en.png" ∉
        attempts (performed (dumpAllDialogs (sampleEnv ["en"] (some 2) true) "hello") World.init)
    ∧ "snapshots/aboutDialog-320x200-en.png" ∉
        attempts (performed (dumpAllDialogs (sampleEnv ["en"] (some 2) true) "hello") World.init)
    ∧ passes (performed (dumpAllDialogs (sampleEnv ["en"] (some 2) true) "hello") World.init) =
        ["en", "en", "en", "en", "en"] := by
  rw [attempts_performed_dumpAllDialogs, passes_performed_dumpAllDialogs]
  decide

/-- C7, on the code: with the duplicate-free language list `["en", "fr"]` and the
message `hello`, the run attempts `snapshots/messageDialog-320x200-hello.png`
twice, once in the pass of each language: the names are not pairwise
distinct. -/
theorem dumpAllDialogs_names_collide :
    (attempts (performed (dumpAllDialogs (sampleEnv ["en", "fr"] (some 2) true) "hello")
        World.init)).count "snapshots/messageDialog-320x200-hello.png" = 2
    ∧ ¬ (attempts (performed (dumpAllDialogs (sampleEnv ["en", "fr"] (some 2) true) "hello")
        World.init)).Nodup := by
  rw [attempts_performed_dumpAllDialogs]
  have h2 : (attempts (sweepSteps (sampleEnv ["en", "fr"] (some 2) true) "hello")).count
      "snapshots/messageDialog-320x200-hello.png" = 2 := by decide
  refine ⟨h2, ?_⟩
  intro hnd
  have hle := List.nodup_iff_count_le_one.mp hnd "snapshots/messageDialog-320x200-hello.png"
  omega

end GUI
